import Mathlib

/-!
Verification of the fire-weather-index PINN pipeline
(`train_pinn_model.py` and `app.py`).

The numeric model uses exact rationals (ℚ) in place of 32-bit floats:
every arithmetic expression of the source is translated literally, and
floating-point rounding itself is out of scope.  Matrices are lists of
rows; a row of the eight features is a function `Fin 8 → ℚ`, in the
source's fixed order

  0 Temperature, 1 RH, 2 Ws, 3 Rain, 4 FFMC, 5 DMC, 6 DC, 7 ISI.

Square roots (the scaler's standard deviation, Adam's second-moment
root) do not stay inside ℚ, so the square-root function is passed as an
explicit parameter `sqrtA`; every theorem holds for an arbitrary such
function, and no claim here depends on its values.
-/

namespace FWI

/-- Arithmetic mean of a list of rationals (`tf.reduce_mean` /
`np.mean` on a vector).  On the empty list this is `0/0 = 0` in ℚ,
whereas the floats produce NaN; theorems about means therefore carry a
nonemptiness hypothesis where it matters. -/
def listMean (l : List ℚ) : ℚ := l.sum / l.length

/-- ReLU activation, `tf.keras` `activation='relu'`. -/
def relu (x : ℚ) : ℚ := max 0 x

/-- Derivative of ReLU as TensorFlow computes it: 1 where the
pre-activation is strictly positive, else 0 (sub-gradient 0 at 0). -/
def reluDeriv (x : ℚ) : ℚ := if 0 < x then 1 else 0

/-- Python's `round(x, 2)` modelled as rounding `100·x` to an integer
and dividing back.  (Ties: Mathlib's `round` rounds half up while
Python rounds half to even; no claim depends on tie behaviour.) -/
def round2 (x : ℚ) : ℚ := (round (x * 100) : ℤ) / 100

/-- Parameters of the `tf.keras.models.Sequential` network of
`train_pinn_model.py` section 4: `Dense(128, relu)` on 8 inputs,
`Dense(64, relu)`, `Dense(1)` (linear).  `W3`/`b3` are the single
output unit's weights and bias. -/
structure MLPParams where
  W1 : Fin 128 → Fin 8 → ℚ
  b1 : Fin 128 → ℚ
  W2 : Fin 64 → Fin 128 → ℚ
  b2 : Fin 64 → ℚ
  W3 : Fin 64 → ℚ
  b3 : ℚ

/-- First hidden layer pre-activation. -/
def z1 (p : MLPParams) (x : Fin 8 → ℚ) (j : Fin 128) : ℚ :=
  (∑ i, p.W1 j i * x i) + p.b1 j

/-- Second hidden layer pre-activation (inputs are `relu (z1 …)`). -/
def z2 (p : MLPParams) (x : Fin 8 → ℚ) (k : Fin 64) : ℚ :=
  (∑ j, p.W2 k j * relu (z1 p x j)) + p.b2 k

/-- Forward pass of the network: scalar prediction for one sample
(`model(x)` for a singleton batch, i.e. `prediction[0][0]`). -/
def forward (p : MLPParams) (x : Fin 8 → ℚ) : ℚ :=
  (∑ k, p.W3 k * relu (z2 p x k)) + p.b3

/-- Gradient of the scalar network output with respect to input
feature `i` — what `tape.gradient(y_pred, x_batch)` yields per sample:
the chain rule through both ReLU layers with the TensorFlow
sub-gradient convention of `reluDeriv`. -/
def netInputGrad (p : MLPParams) (x : Fin 8 → ℚ) (i : Fin 8) : ℚ :=
  ∑ k, p.W3 k * reluDeriv (z2 p x k) *
    ∑ j, p.W2 k j * reluDeriv (z1 p x j) * p.W1 j i

/-- `physics_loss_fn` of `train_pinn_model.py` lines 98–114, applied to
the per-sample input-gradient matrix of a batch: for Temperature
(index 0) and Ws (index 2) penalise negative gradients, for RH (1) and
Rain (3) penalise positive gradients, take the batch mean of each and
sum the four means. -/
def physics_loss_fn (grads : List (Fin 8 → ℚ)) : ℚ :=
  listMean (grads.map fun g => max 0 (-(g 0))) +
  listMean (grads.map fun g => max 0 (g 1)) +
  listMean (grads.map fun g => max 0 (-(g 2))) +
  listMean (grads.map fun g => max 0 (g 3))

/-- The physics penalty of a batch: `physics_loss_fn(model, x_batch)`,
which differentiates the model output w.r.t. its inputs and feeds the
gradient matrix to the four-feature penalty. -/
def physPenalty (p : MLPParams) (xb : List (Fin 8 → ℚ)) : ℚ :=
  physics_loss_fn (xb.map (netInputGrad p))

/-- The four designated physics features with their penalised sign,
as the spec words it: `true` means the violation is `max 0 (-grad)`
(output must not decrease in this feature), `false` means
`max 0 grad`. -/
def physicsSpecFeatures : List (Fin 8 × Bool) :=
  [(0, true), (1, false), (2, true), (3, false)]

/-- Per-sample violation for one designated feature, following the
spec's wording (`max(0, -gradient)` or `max(0, gradient)` depending on
the expected sign). -/
def violation (negPenalized : Bool) (g : ℚ) : ℚ :=
  if negPenalized then max 0 (-g) else max 0 g

/-- The spec's formulation of the penalty: sum over the four designated
features of the batch mean of the per-sample violation. -/
def physPenaltySpec (p : MLPParams) (xb : List (Fin 8 → ℚ)) : ℚ :=
  (physicsSpecFeatures.map fun fs =>
    listMean (xb.map fun x => violation fs.2 (netInputGrad p x fs.1))).sum

/-- `PHYSICS_LOSS_WEIGHT = 0.1` of `train_pinn_model.py` line 21:
a module-level constant, read when the total loss is formed and never
reassigned anywhere in the source. -/
def PHYSICS_LOSS_WEIGHT : ℚ := 1 / 10

/-- `N_EPOCHS = 100` of line 19. -/
def N_EPOCHS : ℕ := 100

/-- `tf.keras.losses.MeanSquaredError()`: mean of elementwise squared
differences of the `(batch, 1)`-shaped targets and predictions. -/
def mse_loss_fn (yTrue yPred : List ℚ) : ℚ :=
  listMean (List.zipWith (fun t q => (t - q) ^ 2) yTrue yPred)

/-- `data_loss` of `train_step` line 121. -/
def dataLossFn (p : MLPParams) (xb : List (Fin 8 → ℚ)) (yb : List ℚ) : ℚ :=
  mse_loss_fn yb (xb.map (forward p))

/-- `total_loss` of `train_step` line 123 — the scalar recorded under
the gradient tape, whose parameter gradient drives the optimizer. -/
def totalLossFn (p : MLPParams) (xb : List (Fin 8 → ℚ)) (yb : List ℚ) : ℚ :=
  dataLossFn p xb yb + PHYSICS_LOSS_WEIGHT * physPenalty p xb

/-- The `(data_loss, physics_loss, total_loss)` triple returned by
`train_step` (line 126). -/
def train_step (p : MLPParams) (xb : List (Fin 8 → ℚ)) (yb : List ℚ) :
    ℚ × ℚ × ℚ :=
  (dataLossFn p xb yb, physPenalty p xb, totalLossFn p xb yb)

/-- The gradients fed to `optimizer.apply_gradients` (lines 124–125):
`G` stands for `tape.gradient · w.r.t. trainable_variables`, an
operator from a scalar loss function of the parameters to a gradient
indexed by `ι`; `train_step` applies it to `total_loss`. -/
def trainStepGrads {ι : Type} (G : (MLPParams → ℚ) → MLPParams → ι → ℚ)
    (p : MLPParams) (xb : List (Fin 8 → ℚ)) (yb : List ℚ) : ι → ℚ :=
  G (fun q => totalLossFn q xb yb) p

/-- Failure modes of `StandardScaler.fit` as modelled here.
`emptyInput` is sklearn's `ValueError` on a 0-sample matrix.
`degenerateFeature` is the spec's `DegenerateFeatureError`; it is
listed so the claim can be stated, but no code path produces it:
sklearn replaces a zero standard deviation by 1 and proceeds. -/
inductive ScalerFitError
  | emptyInput
  | degenerateFeature
deriving DecidableEq

/-- The fitted scaler: per-column mean and divisor.  `scale` is
sklearn's `scale_`, i.e. the standard deviation after
`_handle_zeros_in_scale` (zeros become 1). -/
structure ScalerState where
  mean : Fin 8 → ℚ
  scale : Fin 8 → ℚ

/-- Column mean over the rows of a matrix. -/
def colMean (X : List (Fin 8 → ℚ)) (i : Fin 8) : ℚ :=
  listMean (X.map fun r => r i)

/-- Column population variance (`ddof = 0`, as sklearn uses). -/
def colVar (X : List (Fin 8 → ℚ)) (i : Fin 8) : ℚ :=
  listMean (X.map fun r => (r i - colMean X i) ^ 2)

/-- `StandardScaler().fit`: store the column means, and as divisor the
standard deviation with zeros replaced by 1.  `sqrtA` abstracts the
floating square root on the non-zero variances; `sqrt 0 = 0` exactly,
so the zero-variance branch is taken before it is consulted. -/
def scalerFit (sqrtA : ℚ → ℚ) (X : List (Fin 8 → ℚ)) :
    Except ScalerFitError ScalerState :=
  if X.isEmpty then .error .emptyInput
  else .ok ⟨colMean X, fun i =>
    if colVar X i = 0 then 1 else sqrtA (colVar X i)⟩

/-- `scaler.transform` on one row: `(x - mean) / scale` per column. -/
def scalerTransform (st : ScalerState) (x : Fin 8 → ℚ) (i : Fin 8) : ℚ :=
  (x i - st.mean i) / st.scale i

/-- Result of lines 78–81: the fitted scaler together with the scaled
training and test matrices. -/
structure SplitScaled where
  scalerState : ScalerState
  trainScaled : List (Fin 8 → ℚ)
  testScaled : List (Fin 8 → ℚ)

/-- Lines 79–81 of `train_pinn_model.py`: fit the scaler on the
training split only (`fit_transform(X_train)`), then apply the same
fitted statistics to the test split (`transform(X_test)`). -/
def splitAndScale (sqrtA : ℚ → ℚ) (Xtr Xte : List (Fin 8 → ℚ)) :
    Except ScalerFitError SplitScaled :=
  match scalerFit sqrtA Xtr with
  | .error e => .error e
  | .ok st => .ok ⟨st, Xtr.map (scalerTransform st), Xte.map (scalerTransform st)⟩

/-- `load(path)` failure modes of the spec's persistence contract. -/
inductive CorruptArtifactError
  | versionMismatch
  | shapeMismatch
deriving DecidableEq

/-- Modelled from the spec: the on-disk persistence format
(`model.save` / `pickle.dump` of lines 151–163 delegate serialization
to Keras and pickle, whose formats are outside this repository).  Per
spec §4.6/§6 the artifact holds a format version, the layer shapes
`[8,128,64,1]`, activation tags, the raw parameter values, and the
8×2 scaler statistics. -/
structure Artifact where
  version : ℕ
  shapes : List ℕ
  actTags : List String
  W1 : List (List ℚ)
  b1 : List ℚ
  W2 : List (List ℚ)
  b2 : List ℚ
  W3 : List ℚ
  b3 : ℚ
  mean : List ℚ
  std : List ℚ

/-- Current artifact format version. -/
def formatVersion : ℕ := 1

/-- Modelled from the spec: `save(parameters, scalerState)` flattens
every parameter tensor and the scaler statistics into the artifact. -/
def saveArtifact (p : MLPParams) (st : ScalerState) : Artifact :=
  { version := formatVersion
  , shapes := [8, 128, 64, 1]
  , actTags := ["relu", "relu", "linear"]
  , W1 := List.ofFn fun j => List.ofFn fun i => p.W1 j i
  , b1 := List.ofFn p.b1
  , W2 := List.ofFn fun k => List.ofFn fun j => p.W2 k j
  , b2 := List.ofFn p.b2
  , W3 := List.ofFn p.W3
  , b3 := p.b3
  , mean := List.ofFn st.mean
  , std := List.ofFn st.scale }

/-- Shape validation performed by `load`. -/
def artifactShapesOk (a : Artifact) : Bool :=
  a.shapes == [8, 128, 64, 1] &&
  a.W1.length == 128 && a.W1.all (fun r => r.length == 8) &&
  a.b1.length == 128 &&
  a.W2.length == 64 && a.W2.all (fun r => r.length == 128) &&
  a.b2.length == 64 && a.W3.length == 64 &&
  a.mean.length == 8 && a.std.length == 8

/-- Modelled from the spec: `load` fails with `CorruptArtifactError` on
a version or shape mismatch and otherwise reconstructs the in-memory
parameters and scaler state from the stored raw values. -/
def loadArtifact (a : Artifact) :
    Except CorruptArtifactError (MLPParams × ScalerState) :=
  if a.version = formatVersion then
    if artifactShapesOk a then
      .ok (⟨fun j i => (a.W1.getD j []).getD i 0,
            fun j => a.b1.getD j 0,
            fun k j => (a.W2.getD k []).getD j 0,
            fun k => a.b2.getD k 0,
            fun k => a.W3.getD k 0,
            a.b3⟩,
           ⟨fun i => a.mean.getD i 0, fun i => a.std.getD i 0⟩)
    else .error .shapeMismatch
  else .error .versionMismatch

/-- A JSON request body for `/api/predict`: numeric fields by name. -/
abbrev PredictRequest : Type := List (String × ℚ)

/-- `data.get(key, 0)` of `app.py` lines 182–187: a missing key yields
the default `0`. -/
def dataGet (data : PredictRequest) (k : String) : ℚ :=
  match List.lookup k data with
  | some v => v
  | none => 0

/-- The eight request field names, in the exact order the feature
vector is assembled in `app.py` lines 182–187. -/
def featureNames : Fin 8 → String :=
  !["temperature", "humidity", "wind_speed", "rain", "ffmc", "dmc", "dc", "isi"]

/-- The `features` list built by the handler: each field read with
default 0. -/
def featuresOf (data : PredictRequest) : Fin 8 → ℚ :=
  fun i => dataGet data (featureNames i)

/-- Responses of the predict route: `200` with the rounded prediction,
or an error status. -/
inductive ApiResponse
  | ok (fwi : ℚ)
  | err (status : ℕ)
deriving DecidableEq

/-- Failure modes of the module-level artifact loading in `app.py`
lines 25–45 (the three `except` arms). -/
inductive ModelLoadError
  | fileNotFound
  | importFailure
  | otherFailure
deriving DecidableEq

/-- The module-level globals `pinn_model` and `scaler` of `app.py`. -/
structure AppState where
  pinn_model : Option MLPParams
  scaler : Option ScalerState

/-- The module-level loading block of `app.py` lines 25–45: every
`except` arm sets both globals to `None` and the process continues, so
startup is total. -/
def startupLoad (r : Except ModelLoadError (MLPParams × ScalerState)) :
    AppState :=
  match r with
  | .ok ps => ⟨some ps.1, some ps.2⟩
  | .error _ => ⟨none, none⟩

/-- Body of the `/api/predict` handler (`app.py` lines 171–203): if
either global is `None` respond 503 without touching the model;
otherwise assemble the features with defaults, scale them with the
loaded scaler, run the network, and return the result rounded to two
decimals. -/
def predict (st : AppState) (data : PredictRequest) : ApiResponse :=
  match st.pinn_model, st.scaler with
  | some p, some sc =>
      .ok (round2 (forward p (scalerTransform sc (featuresOf data))))
  | _, _ => .err 503

/-- Keras `Adam()` default learning rate 0.001. -/
def adamAlpha : ℚ := 1 / 1000

/-- Keras `Adam()` default `beta_1 = 0.9`. -/
def adamBeta1 : ℚ := 9 / 10

/-- Keras `Adam()` default `beta_2 = 0.999`. -/
def adamBeta2 : ℚ := 999 / 1000

/-- Keras `Adam()` default `epsilon = 1e-7`. -/
def adamEpsilon : ℚ := 1 / 10000000

/-- Adam's state over a parameter index type `ι` (the flattened
trainable variables): current parameters, first and second moment
accumulators, and the step counter. -/
structure AdamState (ι : Type) where
  theta : ι → ℚ
  m : ι → ℚ
  v : ι → ℚ
  t : ℕ

/-- One Adam update for gradient `g`: exponentially decayed moment
estimates, bias correction by the step count, and a parameter step
scaled by the inverse root of the corrected second moment.  `sqrtA`
abstracts the square root, which leaves ℚ. -/
def adamUpdate {ι : Type} (sqrtA : ℚ → ℚ) (g : ι → ℚ) (s : AdamState ι) :
    AdamState ι :=
  let t := s.t + 1
  let m := fun i => adamBeta1 * s.m i + (1 - adamBeta1) * g i
  let v := fun i => adamBeta2 * s.v i + (1 - adamBeta2) * g i ^ 2
  { theta := fun i =>
      s.theta i - adamAlpha * (m i / (1 - adamBeta1 ^ t)) /
        (sqrtA (v i / (1 - adamBeta2 ^ t)) + adamEpsilon)
  , m := m, v := v, t := t }

/-- A training trajectory: `T n` is the optimizer state before step
`n`; `g n` is the parameter gradient delivered at step `n` (determined
by the data, the batch order produced by the shuffle, and the current
parameters). -/
def IsAdamRun {ι : Type} (sqrtA : ℚ → ℚ) (g : ℕ → ι → ℚ)
    (s0 : AdamState ι) (T : ℕ → AdamState ι) : Prop :=
  T 0 = s0 ∧ ∀ n, T (n + 1) = adamUpdate sqrtA (g n) (T n)

/-- Errors a training run could surface.  `numericInstability` is the
spec's `NumericInstabilityError`; the constructor exists so the claim
can be stated, but the loop below has no raise site for it. -/
inductive TrainError
  | numericInstability
deriving DecidableEq

/-- One epoch of the custom loop (lines 134–138): fold the step
function over the batch list, counting step invocations.  The step
returns the `(data, physics, total)` loss triple exactly as
`train_step` does; the triple feeds only the per-epoch mean metrics,
which the source uses for printing alone (spec §4.5: observability
only), so it is discarded here. -/
def runEpoch {σ β α : Type} (step : σ → β → (α × α × α) × σ)
    (batches : List β) (acc : σ × ℕ) : σ × ℕ :=
  batches.foldl (fun a b => ((step a.1 b).2, a.2 + 1)) acc

/-- The full training loop (lines 130–141): `N_EPOCHS` epochs, each a
pass over the same batch list.  No conditional anywhere inspects a loss
value, so the loop can only finish normally. -/
def trainLoop {σ β α : Type} (step : σ → β → (α × α × α) × σ)
    (batches : List β) (s0 : σ) : Except TrainError (σ × ℕ) :=
  .ok ((List.range N_EPOCHS).foldl (fun a _ => runEpoch step batches a) (s0, 0))

/-- All-zero network with output bias −1: forward output is the
constant −1 and every input gradient vanishes. -/
def negBiasParams : MLPParams :=
  ⟨fun _ _ => 0, fun _ => 0, fun _ _ => 0, fun _ => 0, fun _ => 0, -1⟩

/-- Identity scaler (mean 0, scale 1). -/
def idScaler : ScalerState := ⟨fun _ => 0, fun _ => 1⟩

/-- A constant row: every feature equals 5. -/
def constRow : Fin 8 → ℚ := fun _ => 5

/-- Concrete two-row training matrix whose first column varies. -/
def rowA : Fin 8 → ℚ := fun i => if i = 0 then 1 else 2

/-- Second concrete row. -/
def rowB : Fin 8 → ℚ := fun i => if i = 0 then 3 else 2

/-- A step function whose losses are all NaN (`none`), standing for a
`train_step` call that returned non-finite tensors. -/
def nanStep : Unit → Unit → (Option ℚ × Option ℚ × Option ℚ) × Unit :=
  fun _ _ => ((none, none, none), ())

/-- A concrete gradient sequence for the Adam determinism witness. -/
def gradSeqW : ℕ → Unit → ℚ := fun n _ => (n : ℚ) + 1

/-- Zero-initialised Adam state over a single parameter. -/
def adamInitW : AdamState Unit := ⟨fun _ => 0, fun _ => 0, fun _ => 0, 0⟩

/-- One concrete trajectory, by structural recursion. -/
def adamRunA : ℕ → AdamState Unit
  | 0 => adamInitW
  | n + 1 => adamUpdate id (gradSeqW n) (adamRunA n)

/-- A second trajectory for the same inputs, built instead with the
recursor, so the two are not syntactically the same function. -/
def adamRunB (n : ℕ) : AdamState Unit :=
  Nat.rec adamInitW (fun k s => adamUpdate id (gradSeqW k) s) n

lemma listMean_eq_zero_of_all_zero {l : List ℚ} (h : ∀ x ∈ l, x = 0) :
    listMean l = 0 := by
  have hs : l.sum = 0 := by
    induction l with
    | nil => rfl
    | cons a t ih =>
        have ha : a = 0 := h a (List.mem_cons_self a t)
        have ht : ∀ x ∈ t, x = 0 := fun x hx => h x (List.mem_cons_of_mem a hx)
        simp [ha, ih ht]
  simp [listMean, hs]

lemma listMean_map_eq_zero {α : Type} {l : List α} {f : α → ℚ}
    (h : ∀ x ∈ l, f x = 0) : listMean (l.map f) = 0 := by
  apply listMean_eq_zero_of_all_zero
  intro y hy
  rcases List.mem_map.mp hy with ⟨x, hx, rfl⟩
  exact h x hx

lemma physics_loss_fn_eq_zero {grads : List (Fin 8 → ℚ)}
    (h : ∀ g ∈ grads, 0 ≤ g 0 ∧ g 1 ≤ 0 ∧ 0 ≤ g 2 ∧ g 3 ≤ 0) :
    physics_loss_fn grads = 0 := by
  have h0 : listMean (grads.map fun g => max 0 (-(g 0))) = 0 :=
    listMean_map_eq_zero fun g hg => by
      have := (h g hg).1
      simp [max_eq_left, neg_nonpos_of_nonneg this]
  have h1 : listMean (grads.map fun g => max 0 (g 1)) = 0 :=
    listMean_map_eq_zero fun g hg => max_eq_left (h g hg).2.1
  have h2 : listMean (grads.map fun g => max 0 (-(g 2))) = 0 :=
    listMean_map_eq_zero fun g hg => by
      have := (h g hg).2.2.1
      simp [max_eq_left, neg_nonpos_of_nonneg this]
  have h3 : listMean (grads.map fun g => max 0 (g 3)) = 0 :=
    listMean_map_eq_zero fun g hg => max_eq_left (h g hg).2.2.2
  simp [physics_loss_fn, h0, h1, h2, h3]

/-- Claim C1: for every batch, the physics penalty equals the sum over
the four designated features (temperature, relative humidity, wind
speed, rain) of the batch mean of the per-sample violation, where the
violation is `max 0 (-grad)` for temperature and wind speed and
`max 0 grad` for humidity and rain; and the penalty is exactly 0
whenever every sample's output gradient is non-negative in temperature
and wind speed and non-positive in humidity and rain. -/
theorem physPenalty_spec_sum_and_zero (p : MLPParams)
    (xb : List (Fin 8 → ℚ)) (hne : xb ≠ []) :
    physPenalty p xb = physPenaltySpec p xb ∧
    ((∀ x ∈ xb, 0 ≤ netInputGrad p x 0 ∧ netInputGrad p x 1 ≤ 0 ∧
        0 ≤ netInputGrad p x 2 ∧ netInputGrad p x 3 ≤ 0) →
      physPenalty p xb = 0) := by
  constructor
  · simp only [physPenalty, physPenaltySpec, physics_loss_fn, physicsSpecFeatures,
      violation, List.map_map, Function.comp_def, List.map_cons, List.map_nil,
      List.sum_cons, List.sum_nil, if_true, if_false, Bool.false_eq_true]
    ring
  · intro h
    apply physics_loss_fn_eq_zero
    intro g hg
    rcases List.mem_map.mp hg with ⟨x, hx, rfl⟩
    exact h x hx

lemma netInputGrad_negBiasParams (x : Fin 8 → ℚ) (i : Fin 8) :
    netInputGrad negBiasParams x i = 0 := by
  simp [netInputGrad, negBiasParams]

/-- Witness for C1 at a concrete batch: the all-zero network on a
one-sample batch has all gradients of the required signs, and its
penalty is 0 and agrees with the spec's sum form. -/
theorem physPenalty_spec_sum_and_zero_witness :
    physPenalty negBiasParams [fun _ => 0] =
      physPenaltySpec negBiasParams [fun _ => 0] ∧
    physPenalty negBiasParams [fun _ => 0] = 0 := by
  have h := physPenalty_spec_sum_and_zero negBiasParams [fun _ => 0]
    (by simp)
  refine ⟨h.1, h.2 ?_⟩
  intro x hx
  simp [netInputGrad_negBiasParams]

/-- Counterexample to claim C2 as stated: the training matrix whose
every column is constant (so each column has zero variance) does NOT
make the scaler fit fail — `StandardScaler.fit_transform` succeeds, as
there is no zero-variance guard in the code. -/
theorem scalerFit_constant_column_succeeds :
    colVar [constRow, constRow] 0 = 0 ∧
    (scalerFit id [constRow, constRow]).isOk = true := by
  constructor
  · simp [colVar, colMean, listMean, constRow]
  · rfl

/-- Claim C2 as amended: fitting on a nonempty matrix with a
zero-variance column succeeds; sklearn replaces the zero standard
deviation of that column by 1, so its transform is `x - mean`
(no division-by-zero failure, no `DegenerateFeatureError`). -/
theorem scalerFit_zeroVar_ok (sqrtA : ℚ → ℚ) (X : List (Fin 8 → ℚ))
    (hne : X ≠ []) (i : Fin 8) (hv : colVar X i = 0) :
    ∃ st, scalerFit sqrtA X = .ok st ∧ st.scale i = 1 ∧
      st.mean i = colMean X i ∧
      ∀ x, scalerTransform st x i = x i - colMean X i := by
  refine ⟨⟨colMean X, fun j =>
    if colVar X j = 0 then 1 else sqrtA (colVar X j)⟩, ?_, ?_, rfl, ?_⟩
  · simp [scalerFit, List.isEmpty_iff, hne]
  · simp [hv]
  · intro x
    simp [scalerTransform, hv]

/-- Witness for the amended C2 at the concrete constant matrix. -/
theorem scalerFit_zeroVar_ok_witness :
    ∃ st, scalerFit id [constRow, constRow] = .ok st ∧ st.scale 0 = 1 ∧
      st.mean 0 = colMean [constRow, constRow] 0 ∧
      ∀ x, scalerTransform st x 0 = x 0 - colMean [constRow, constRow] 0 :=
  scalerFit_zeroVar_ok id [constRow, constRow] (by simp) 0
    (by simp [colVar, colMean, listMean, constRow])

/-- Claim C5: the scaler statistics are computed exclusively from the
training split — varying the test split does not change them — and the
same fitted state standardises the training split, the test split, and
(via `predict`, which applies `scalerTransform` of the loaded state)
every inference input. -/
theorem scaler_stats_from_train_only (sqrtA : ℚ → ℚ)
    (Xtr Xte Xte' : List (Fin 8 → ℚ)) :
    (splitAndScale sqrtA Xtr Xte).map SplitScaled.scalerState =
      (splitAndScale sqrtA Xtr Xte').map SplitScaled.scalerState ∧
    (∀ st, scalerFit sqrtA Xtr = .ok st →
      splitAndScale sqrtA Xtr Xte =
        .ok ⟨st, Xtr.map (scalerTransform st), Xte.map (scalerTransform st)⟩ ∧
      ∀ p data, predict ⟨some p, some st⟩ data =
        .ok (round2 (forward p (scalerTransform st (featuresOf data))))) := by
  constructor
  · cases h : scalerFit sqrtA Xtr with
    | error e => simp [splitAndScale, h]
    | ok st => simp [splitAndScale, h, Except.map]
  · intro st h
    exact ⟨by simp [splitAndScale, h], fun p data => rfl⟩

/-- Witness for C5 at a concrete training matrix and two different
test splits. -/
theorem scaler_stats_from_train_only_witness :
    (splitAndScale id [rowA, rowB] []).map SplitScaled.scalerState =
      (splitAndScale id [rowA, rowB] [constRow]).map SplitScaled.scalerState ∧
    splitAndScale id [rowA, rowB] [] =
      .ok ⟨⟨colMean [rowA, rowB], fun j =>
            if colVar [rowA, rowB] j = 0 then 1
            else id (colVar [rowA, rowB] j)⟩,
          [rowA, rowB].map (scalerTransform
            ⟨colMean [rowA, rowB], fun j =>
              if colVar [rowA, rowB] j = 0 then 1
              else id (colVar [rowA, rowB] j)⟩),
          []⟩ := by
  have h := scaler_stats_from_train_only id [rowA, rowB] [] [constRow]
  exact ⟨h.1, ((h.2 _ rfl).1)⟩

/-- Claim C3: the loss whose parameter gradients are fed to the
optimizer is exactly the mean-squared-error data loss plus
`PHYSICS_LOSS_WEIGHT` times the physics penalty, and that weight is the
constant 0.1. -/
theorem train_step_total_loss {ι : Type}
    (G : (MLPParams → ℚ) → MLPParams → ι → ℚ)
    (p : MLPParams) (xb : List (Fin 8 → ℚ)) (yb : List ℚ) :
    trainStepGrads G p xb yb =
      G (fun q => dataLossFn q xb yb + PHYSICS_LOSS_WEIGHT * physPenalty q xb) p ∧
    (train_step p xb yb).2.2 =
      (train_step p xb yb).1 + PHYSICS_LOSS_WEIGHT * (train_step p xb yb).2.1 ∧
    PHYSICS_LOSS_WEIGHT = 1 / 10 :=
  ⟨rfl, rfl, rfl⟩

lemma getD_ofFn {α : Type} {n : ℕ} (f : Fin n → α) (d : α) (i : Fin n) :
    (List.ofFn f).getD i d = f i := by
  rw [List.getD_eq_getElem _ _ (by simpa using i.isLt)]
  simp

lemma saveArtifact_shapesOk (p : MLPParams) (st : ScalerState) :
    artifactShapesOk (saveArtifact p st) = true := by
  have hallW1 : ∀ r ∈ (List.ofFn fun j => List.ofFn fun i => p.W1 j i),
      r.length = 8 := by
    intro r hr
    obtain ⟨j, hj⟩ := (List.mem_ofFn _ _).mp hr
    rw [← hj, List.length_ofFn]
  have hallW2 : ∀ r ∈ (List.ofFn fun k => List.ofFn fun j => p.W2 k j),
      r.length = 128 := by
    intro r hr
    obtain ⟨k, hk⟩ := (List.mem_ofFn _ _).mp hr
    rw [← hk, List.length_ofFn]
  simp only [artifactShapesOk, saveArtifact, Bool.and_eq_true, beq_iff_eq,
    List.length_ofFn, List.all_eq_true]
  repeat' apply And.intro
  all_goals first
    | rfl
    | exact trivial
    | exact hallW1
    | exact hallW2

lemma loadArtifact_saveArtifact (p : MLPParams) (st : ScalerState) :
    loadArtifact (saveArtifact p st) = .ok (p, st) := by
  have hW1 : (fun (j : Fin 128) (i : Fin 8) =>
      (((saveArtifact p st).W1).getD j []).getD i 0) = p.W1 := by
    funext j i
    simp only [saveArtifact]
    rw [getD_ofFn, getD_ofFn]
  have hb1 : (fun (j : Fin 128) => ((saveArtifact p st).b1).getD j 0) = p.b1 := by
    funext j
    simp only [saveArtifact]
    rw [getD_ofFn]
  have hW2 : (fun (k : Fin 64) (j : Fin 128) =>
      (((saveArtifact p st).W2).getD k []).getD j 0) = p.W2 := by
    funext k j
    simp only [saveArtifact]
    rw [getD_ofFn, getD_ofFn]
  have hb2 : (fun (k : Fin 64) => ((saveArtifact p st).b2).getD k 0) = p.b2 := by
    funext k
    simp only [saveArtifact]
    rw [getD_ofFn]
  have hW3 : (fun (k : Fin 64) => ((saveArtifact p st).W3).getD k 0) = p.W3 := by
    funext k
    simp only [saveArtifact]
    rw [getD_ofFn]
  have hmean : (fun (i : Fin 8) => ((saveArtifact p st).mean).getD i 0) = st.mean := by
    funext i
    simp only [saveArtifact]
    rw [getD_ofFn]
  have hstd : (fun (i : Fin 8) => ((saveArtifact p st).std).getD i 0) = st.scale := by
    funext i
    simp only [saveArtifact]
    rw [getD_ofFn]
  rw [loadArtifact]
  rw [if_pos (show (saveArtifact p st).version = formatVersion from rfl)]
  rw [if_pos (saveArtifact_shapesOk p st)]
  rw [hW1, hb1, hW2, hb2, hW3, hmean, hstd]
  rfl

/-- Claim C4: loading the persisted artifact after saving reconstructs
state equal to what was saved — parameters and the 8×2 scaler
statistics — hence identical predictions (and identical input scaling)
on any fixed input. -/
theorem load_save_roundtrip (p : MLPParams) (st : ScalerState) :
    loadArtifact (saveArtifact p st) = .ok (p, st) ∧
    (∀ q sc, loadArtifact (saveArtifact p st) = .ok (q, sc) →
      ∀ x, forward q x = forward p x ∧
        scalerTransform sc x = scalerTransform st x) := by
  have hok := loadArtifact_saveArtifact p st
  refine ⟨hok, ?_⟩
  intro q sc h x
  rw [hok] at h
  have hps := Except.ok.inj h
  have hq : q = p := (congrArg Prod.fst hps).symm
  have hsc : sc = st := (congrArg Prod.snd hps).symm
  subst hq
  subst hsc
  exact ⟨rfl, rfl⟩

/-- Witness for C4 at a concrete parameter set and scaler. -/
theorem load_save_roundtrip_witness :
    loadArtifact (saveArtifact negBiasParams idScaler) =
      .ok (negBiasParams, idScaler) ∧
    forward negBiasParams (fun _ => 0) = forward negBiasParams (fun _ => 0) := by
  have h := load_save_roundtrip negBiasParams idScaler
  exact ⟨h.1, (h.2 negBiasParams idScaler h.1 (fun _ => 0)).1⟩

/-- Counterexample to claim C8 as stated: with the all-zero network
whose output bias is −1 (a shape-valid artifact) and an empty request,
`predict` returns −1, a negative value — the handler never clamps the
linear output. -/
theorem predict_can_be_negative :
    predict ⟨some negBiasParams, some idScaler⟩ [] = .ok (-1) ∧
    ¬ (0 ≤ (-1 : ℚ)) := by
  constructor
  · have hfwd : forward negBiasParams
        (scalerTransform idScaler (featuresOf [])) = -1 := by
      simp [forward, negBiasParams, relu, z2, z1]
    have hr : round2 (-1 : ℚ) = -1 := by
      have hc : ((-1 : ℚ) * 100) = ((-100 : ℤ) : ℚ) := by norm_num
      rw [round2, hc, round_intCast]
      norm_num
    simp [predict, hfwd, hr]
  · norm_num

/-- Claim C8 as amended: for every loaded artifact and request,
`predict` returns a single value, the network output on the scaled
features rounded to two decimals; non-negativity is not guaranteed. -/
theorem predict_single_rounded_value (p : MLPParams) (sc : ScalerState)
    (data : PredictRequest) :
    predict ⟨some p, some sc⟩ data =
      .ok (round2 (forward p (scalerTransform sc (featuresOf data)))) := rfl

/-- Claim C9: any of the eight feature fields absent from the request
body is silently replaced by 0 in the assembled feature vector, and a
prediction is still returned (no rejection). -/
theorem predict_missing_field_defaults_zero (p : MLPParams)
    (sc : ScalerState) (data : PredictRequest) (i : Fin 8)
    (habs : List.lookup (featureNames i) data = none) :
    featuresOf data i = 0 ∧
    ∃ q, predict ⟨some p, some sc⟩ data = .ok q := by
  refine ⟨?_, ⟨_, rfl⟩⟩
  simp [featuresOf, dataGet, habs]

/-- Witness for C9: the empty request with the `rain` field (index 3)
absent. -/
theorem predict_missing_field_defaults_zero_witness :
    featuresOf [] 3 = 0 ∧
    ∃ q, predict ⟨some negBiasParams, some idScaler⟩ [] = .ok q :=
  predict_missing_field_defaults_zero negBiasParams idScaler [] 3 rfl

/-- Claim C10: when artifact loading fails at process start, startup
still completes with both globals `None`, and every predict call then
returns status 503 without attempting a prediction. -/
theorem predict_503_when_load_fails (e : ModelLoadError)
    (data : PredictRequest) :
    startupLoad (.error e) = ⟨none, none⟩ ∧
    predict (startupLoad (.error e)) data = .err 503 :=
  ⟨rfl, rfl⟩

/-- Claim C7: training is deterministic — two optimizer trajectories
driven by the same gradient sequence (the data and the seeded batch
shuffle fixed) from the same initial state coincide at every step, in
particular at the final parameters. -/
theorem adam_training_deterministic {ι : Type} (sqrtA : ℚ → ℚ)
    (g : ℕ → ι → ℚ) (s0 : AdamState ι) (T1 T2 : ℕ → AdamState ι)
    (h1 : IsAdamRun sqrtA g s0 T1) (h2 : IsAdamRun sqrtA g s0 T2) :
    ∀ n, T1 n = T2 n := by
  intro n
  induction n with
  | zero => rw [h1.1, h2.1]
  | succ n ih => rw [h1.2 n, h2.2 n, ih]

/-- Witness for C7: two differently-constructed trajectories for the
same concrete gradient sequence agree after three steps. -/
theorem adam_training_deterministic_witness : adamRunA 3 = adamRunB 3 :=
  adam_training_deterministic id gradSeqW adamInitW adamRunA adamRunB
    ⟨rfl, fun n => rfl⟩ ⟨rfl, fun n => rfl⟩ 3

lemma runEpoch_count {σ β α : Type} (step : σ → β → (α × α × α) × σ)
    (batches : List β) : ∀ acc : σ × ℕ,
    (runEpoch step batches acc).2 = acc.2 + batches.length := by
  induction batches with
  | nil => intro acc; simp [runEpoch]
  | cons b t ih =>
      intro acc
      have hstep : runEpoch step (b :: t) acc =
          runEpoch step t ((step acc.1 b).2, acc.2 + 1) := rfl
      rw [hstep, ih]
      simp [List.length_cons]
      omega

lemma epochFold_count {σ β α : Type} (step : σ → β → (α × α × α) × σ)
    (batches : List β) : ∀ (l : List ℕ) (acc : σ × ℕ),
    (l.foldl (fun a _ => runEpoch step batches a) acc).2 =
      acc.2 + l.length * batches.length := by
  intro l
  induction l with
  | nil => intro acc; simp
  | cons e t ih =>
      intro acc
      simp only [List.foldl_cons]
      rw [ih, runEpoch_count]
      simp only [List.length_cons]
      ring

/-- Claim C6 as amended: the training loop performs no finiteness
check at all — whatever the step function returns, the loop runs
exactly `N_EPOCHS × (number of batches)` steps and finishes normally;
it never surfaces a `NumericInstabilityError`. -/
theorem trainLoop_no_halt {σ β α : Type} (step : σ → β → (α × α × α) × σ)
    (batches : List β) (s0 : σ) :
    ∃ sf, trainLoop step batches s0 =
      .ok (sf, N_EPOCHS * batches.length) := by
  refine ⟨((List.range N_EPOCHS).foldl
    (fun a _ => runEpoch step batches a) (s0, 0)).1, ?_⟩
  rw [trainLoop]
  congr 1
  have h := epochFold_count step batches (List.range N_EPOCHS) (s0, 0)
  simp only [List.length_range, Nat.zero_add] at h
  rw [← h]

set_option maxRecDepth 8000 in
/-- Counterexample to claim C6 as stated: a step whose losses are all
non-finite (`none`, standing for NaN) already at the very first batch
does not halt training — the loop still completes all
`100 × 2 = 200` steps and returns normally, surfacing no error. -/
theorem trainLoop_continues_after_nan :
    (nanStep () ()).1.1 = none ∧
    trainLoop nanStep [(), ()] () = .ok ((), 200) :=
  ⟨rfl, rfl⟩

end FWI
